import Mathlib

/-!
Verification of the finding correlation and alerting engine of
`findings/models.py`: identity hashing, severity ranking, the ordering
manager, the alert-rule evaluation loops of `RawFinding` and `Finding`,
and the lifecycle signal handlers that drive audit events and the asset
risk-grade cascade.

Machine words are modelled as `Nat` reduced modulo `2 ^ w`; fallible
operations return `Except`.  Django specifics are made explicit:
`self._state.adding` becomes an explicit `adding : Bool` argument of
`save`, `timezone.now()` an explicit `now` argument, and the object
stores become explicit list parameters.
-/

/-- Truncate to a 32-bit word. -/
def w32 (x : Nat) : Nat := x % 4294967296

/-- Left rotation of a 32-bit word by `n` bits (for `x < 2 ^ 32`, `n ≤ 32`). -/
def rotl32 (n x : Nat) : Nat := w32 ((x <<< n) ||| (x >>> (32 - n)))

/-- UTF-8 encoding of a single character, as bytes (each a `Nat` below 256);
this is what Python's `str.encode('utf-8')` produces per code point. -/
def utf8EncodeChar (c : Char) : List Nat :=
  let n := c.toNat
  if n < 128 then [n]
  else if n < 2048 then [192 ||| (n >>> 6), 128 ||| (n &&& 63)]
  else if n < 65536 then
    [224 ||| (n >>> 12), 128 ||| ((n >>> 6) &&& 63), 128 ||| (n &&& 63)]
  else
    [240 ||| (n >>> 18), 128 ||| ((n >>> 12) &&& 63),
     128 ||| ((n >>> 6) &&& 63), 128 ||| (n &&& 63)]

/-- UTF-8 encoding of a string, as a byte list. -/
def utf8Encode (s : String) : List Nat := s.data.flatMap utf8EncodeChar

/-- SHA-1 message padding: append the 1 bit (byte 128), zero bytes until the
length is 56 modulo 64, then the original bit length as 8 big-endian bytes. -/
def sha1Pad (m : List Nat) : List Nat :=
  let L := m.length
  let k := (119 - L % 64) % 64
  let bits := 8 * L
  m ++ [128] ++ List.replicate k 0 ++
    [(bits >>> 56) % 256, (bits >>> 48) % 256, (bits >>> 40) % 256, (bits >>> 32) % 256,
     (bits >>> 24) % 256, (bits >>> 16) % 256, (bits >>> 8) % 256, bits % 256]

/-- Group bytes into big-endian 32-bit words. -/
def bytesToWords (l : List Nat) : List Nat :=
  (List.range (l.length / 4)).map (fun i =>
    (l.getD (4 * i) 0 <<< 24) + (l.getD (4 * i + 1) 0 <<< 16) +
    (l.getD (4 * i + 2) 0 <<< 8) + l.getD (4 * i + 3) 0)

/-- SHA-1 message schedule: 80 words extended from the 16 block words. -/
def sha1Schedule (ws : List Nat) : Array Nat :=
  Nat.fold (fun t w =>
    if t < 16 then w.push (ws.getD t 0)
    else w.push (rotl32 1 ((w.getD (t - 3) 0) ^^^ (w.getD (t - 8) 0) ^^^
                           (w.getD (t - 14) 0) ^^^ (w.getD (t - 16) 0)))) 80 #[]

/-- SHA-1 round logical function. -/
def sha1F (t b c d : Nat) : Nat :=
  if t < 20 then (b &&& c) ||| ((4294967295 ^^^ b) &&& d)
  else if t < 40 then b ^^^ c ^^^ d
  else if t < 60 then (b &&& c) ||| (b &&& d) ||| (c &&& d)
  else b ^^^ c ^^^ d

/-- SHA-1 round constants. -/
def sha1K (t : Nat) : Nat :=
  if t < 20 then 1518500249
  else if t < 40 then 1859775393
  else if t < 60 then 2400959708
  else 3395469782

/-- The five 32-bit SHA-1 state words. -/
abbrev Sha1State := Nat × Nat × Nat × Nat × Nat

/-- One SHA-1 compression round. -/
def sha1Round (w : Array Nat) (t : Nat) (st : Sha1State) : Sha1State :=
  let (a, b, c, d, e) := st
  (w32 (rotl32 5 a + sha1F t b c d + e + sha1K t + w.getD t 0), a, rotl32 30 b, c, d)

/-- Process one 64-byte block. -/
def sha1Block (h : Sha1State) (block : List Nat) : Sha1State :=
  let w := sha1Schedule (bytesToWords block)
  let (a, b, c, d, e) := Nat.fold (sha1Round w) 80 h
  (w32 (h.1 + a), w32 (h.2.1 + b), w32 (h.2.2.1 + c), w32 (h.2.2.2.1 + d), w32 (h.2.2.2.2 + e))

/-- Process a padded message block by block (its length is a multiple of 64). -/
def sha1Blocks (h0 : Sha1State) (m : List Nat) : Sha1State :=
  (List.range (m.length / 64)).foldl (fun h i => sha1Block h ((m.drop (64 * i)).take 64)) h0

/-- Combine the five 32-bit state words into the 160-bit digest value.  Each
word is already below `2 ^ 32`, so the final reduction modulo `2 ^ 160` is the
identity; it records the digest width explicitly. -/
def sha1Combine (st : Sha1State) : Nat :=
  ((((st.1 * 4294967296 + st.2.1) * 4294967296 + st.2.2.1) * 4294967296 + st.2.2.2.1) *
      4294967296 + st.2.2.2.2) % (2 ^ 160)

/-- The SHA-1 digest of a byte list, as a 160-bit natural number. -/
def sha1Digest (m : List Nat) : Nat :=
  sha1Combine (sha1Blocks (1732584193, 4023233417, 2562383102, 271733878, 3285377520) (sha1Pad m))

/-- Lower-case hexadecimal digit. -/
def hexChar (n : Nat) : Char :=
  if n < 10 then Char.ofNat (48 + n) else Char.ofNat (87 + n)

/-- Fixed-width 40-digit hexadecimal rendering of a 160-bit value. -/
def natToHex40 (n : Nat) : String :=
  String.mk ((List.range 40).map (fun i => hexChar ((n >>> (4 * (39 - i))) % 16)))

/-- `hashlib.sha1(m).hexdigest()`. -/
def sha1Hex (m : List Nat) : String := natToHex40 (sha1Digest m)

/-- The dedup hash assigned on every save:
`hashlib.sha1(str(asset_name).encode('utf-8') + str(title).encode('utf-8')).hexdigest()`
(models.py lines 102 and 199). -/
def computeHash (asset_name title : String) : String :=
  sha1Hex (utf8Encode asset_name ++ utf8Encode title)

/-- The severity rank assigned on every save: the if/elif chain of
`RawFinding.save` (lines 103-112) and `Finding.save` (lines 200-209). -/
def rankOf (severity : String) : Nat :=
  if severity = "info" then 1
  else if severity = "low" then 2
  else if severity = "medium" then 3
  else if severity = "high" then 4
  else 0

/-- The columns of `RawFinding` touched by `save` and the signal handlers;
the remaining columns of the model are carried unchanged by `save` and are
omitted here. -/
structure RawFinding where
  asset_name : String
  title : String
  hash : String
  severity : String
  severity_num : Nat
  created_at : Nat
  updated_at : Nat
deriving DecidableEq

/-- `RawFinding.save` (lines 101-116): recompute the dedup hash and the
severity rank, and refresh `updated_at` on each update except on creation.
`adding` models `self._state.adding` and `now` models `timezone.now()`. -/
def RawFinding.save (r : RawFinding) (adding : Bool) (now : Nat) : RawFinding :=
  { r with
    hash := computeHash r.asset_name r.title
    severity_num := rankOf r.severity
    updated_at := if adding then r.updated_at else now }

/-- The columns of `Finding` touched by `save` and the signal handlers. -/
structure Finding where
  asset_name : String
  title : String
  hash : String
  severity : String
  severity_num : Nat
  created_at : Nat
  updated_at : Nat
deriving DecidableEq

/-- `Finding.save` (lines 198-214): same duplicated logic as `RawFinding.save`. -/
def Finding.save (f : Finding) (adding : Bool) (now : Nat) : Finding :=
  { f with
    hash := computeHash f.asset_name f.title
    severity_num := rankOf f.severity
    updated_at := if adding then f.updated_at else now }

/-- An audit event as created by the signal handlers: its type
(CREATE, UPDATE or DELETE) and severity; the interpolated message text
is not modelled. -/
structure Event where
  type : String
  severity : String
deriving DecidableEq

/-- The asset collaborator: an id and a display value. -/
structure Asset where
  id : Nat
  value : String
deriving DecidableEq

/-- `post_save` handler for `Finding` (lines 234-242).  The first component
lists the asset ids on which `calc_risk_grade` is invoked: none on creation,
exactly the instance's asset on update. -/
def finding_create_update_log (created : Bool) (asset_id : Nat) : List Nat × Event :=
  if created then ([], ⟨"CREATE", "DEBUG"⟩)
  else ([asset_id], ⟨"UPDATE", "DEBUG"⟩)

/-- `post_delete` handler for `Finding` (lines 245-251): resolve the asset by
the instance's stored `asset_id` via `Asset.objects.get` — which raises
`DoesNotExist` when no asset matches — then invoke `calc_risk_grade` on it and
emit the DELETE event. -/
def finding_delete_log (assets : List Asset) (asset_id : Nat) :
    Except String (List Nat × Event) :=
  match assets.find? (fun a => a.id == asset_id) with
  | none => Except.error "Asset matching query does not exist"
  | some a => Except.ok ([a.id], ⟨"DELETE", "DEBUG"⟩)

/-- `post_save` handler for `RawFinding` (lines 135-142): audit event only,
never a risk-grade call. -/
def rawfinding_create_update_log (created : Bool) : List Nat × Event :=
  if created then ([], ⟨"CREATE", "DEBUG"⟩)
  else ([], ⟨"UPDATE", "DEBUG"⟩)

/-- `post_delete` handler for `RawFinding` (lines 145-148): audit event only. -/
def rawfinding_delete_log : List Nat × Event := ([], ⟨"DELETE", "DEBUG"⟩)

/-- The rule collaborator, as used by `evaluate_alert_rules`.  Its condition
is a mapping; the loop reads only its first entry, so it is modelled as an
ordered association list. -/
structure Rule where
  enabled : Bool
  scope : String
  trigger : String
  scope_attr : String
  condition : List (String × String)
deriving DecidableEq

/-- A stored finding row as seen by `Finding.objects.filter(**kwargs)`:
its id and its queryable attributes. -/
structure StoredFinding where
  id : Nat
  attrs : List (String × String)
deriving DecidableEq

/-- The fields of the finding under evaluation that the loop reads. -/
structure FindingCtx where
  id : Nat
  title : String
  description : String
  asset_value : String
deriving DecidableEq

/-- A dispatched notification: `rule.notify(message=..., asset=..., description=...)`. -/
structure Notification where
  message : String
  asset : String
  description : String
deriving DecidableEq

/-- Python exceptions that the evaluation loops can raise. -/
inductive PyError where
  | stopIteration
  | attributeError
  | fieldError (field : String)
deriving DecidableEq

instance {ε α : Type} [DecidableEq ε] [DecidableEq α] : DecidableEq (Except ε α) := fun x y =>
  match x, y with
  | Except.error a, Except.error b => decidable_of_iff (a = b) (by simp)
  | Except.error _, Except.ok _ => isFalse (by simp)
  | Except.ok _, Except.error _ => isFalse (by simp)
  | Except.ok a, Except.ok b => decidable_of_iff (a = b) (by simp)

/-- The queryable column names of the `Finding` model; `filter(**kwargs)`
raises a `FieldError` for any other name. -/
def finding_fields : List String :=
  ["id", "raw_finding", "asset", "asset_name", "task_id", "scan", "owner", "title",
   "type", "hash", "confidence", "severity", "severity_num", "scopes", "description",
   "solution", "raw_data", "risk_info", "vuln_refs", "links", "tags", "status",
   "engine_type", "found_at", "comments", "checked_at", "created_at", "updated_at"]

/-- The rows matching `filter(id=qid, field=v)`. -/
def storeMatches (store : List StoredFinding) (qid : Nat) (field : String) (v : String) :
    List StoredFinding :=
  store.filter (fun s => s.id == qid && s.attrs.lookup field == some v)

/-- `Finding.objects.filter(**kwargs)` for the two-entry kwargs built by the
loop: an unknown field name raises a `FieldError`. -/
def storeFilter (store : List StoredFinding) (qid : Nat) (field : String) (v : String) :
    Except PyError (List StoredFinding) :=
  if finding_fields.contains field then
    Except.ok (storeMatches store qid field v)
  else Except.error (PyError.fieldError field)

/-- Rule selection (lines 217-220): enabled finding-scoped rules, further
filtered by trigger unless the trigger is "all". -/
def selectRules (rules : List Rule) (trigger : String) : List Rule :=
  if trigger = "all" then rules.filter (fun r => r.enabled && r.scope == "finding")
  else rules.filter (fun r => r.enabled && r.scope == "finding" && r.trigger == trigger)

/-- The notification dispatched on a match (line 230):
`message="[Asset={}] {}".format(self.asset.value, self.title)` with the asset
and the description as context. -/
def mkNotification (f : FindingCtx) : Notification :=
  ⟨"[Asset=" ++ f.asset_value ++ "] " ++ f.title, f.asset_value, f.description⟩

/-- The rule loop of `Finding.evaluate_alert_rules` (lines 221-231).  Per rule:
`next(iter(rule.condition))` raises `StopIteration` on an empty condition;
the store is filtered on `id` and `scope_attr + first_condition_key`; on a
non-empty result the counter is incremented and the rule notifies.  An
exception aborts the loop, discarding the count but keeping nothing of the
remaining rules; notifications already dispatched are returned alongside. -/
def evalLoop (f : FindingCtx) (store : List StoredFinding) :
    List Rule → List Notification × Except PyError Nat
  | [] => ([], Except.ok 0)
  | r :: rest =>
    match r.condition with
    | [] => ([], Except.error PyError.stopIteration)
    | (k, v) :: _ =>
      match storeFilter store f.id (r.scope_attr ++ k) v with
      | Except.error e => ([], Except.error e)
      | Except.ok hits =>
        if hits.isEmpty then evalLoop f store rest
        else
          let (ns, res) := evalLoop f store rest
          (mkNotification f :: ns, res.map (· + 1))

/-- `Finding.evaluate_alert_rules` (lines 216-231). -/
def evaluate_alert_rules (f : FindingCtx) (trigger : String) (rules : List Rule)
    (store : List StoredFinding) : List Notification × Except PyError Nat :=
  evalLoop f store (selectRules rules trigger)

/-- Whether a rule matches the finding: the filter on
`id` and `scope_attr + first_condition_key` returns at least one row. -/
def ruleMatches (f : FindingCtx) (store : List StoredFinding) (r : Rule) : Bool :=
  match r.condition with
  | [] => false
  | (k, v) :: _ => !(storeMatches store f.id (r.scope_attr ++ k) v).isEmpty

/-- The rule loop of `RawFinding.evaluate_alert_rules` (lines 123-132).  The
kwargs value is built with `rule.condition.itervalues().next()`: under
Python 3 a dict has no `itervalues`, so the first rule with a non-empty
condition raises `AttributeError` before the store is ever consulted (an
empty condition raises `StopIteration` from the key expression first). -/
def rawEvalLoop (f : FindingCtx) : List Rule → List Notification × Except PyError Nat
  | [] => ([], Except.ok 0)
  | r :: _ =>
    match r.condition with
    | [] => ([], Except.error PyError.stopIteration)
    | _ :: _ => ([], Except.error PyError.attributeError)

/-- `RawFinding.evaluate_alert_rules` (lines 118-132). -/
def rawfinding_evaluate_alert_rules (f : FindingCtx) (trigger : String) (rules : List Rule) :
    List Notification × Except PyError Nat :=
  rawEvalLoop f (selectRules rules trigger)

/-- The sort key fields used by `FindingManager.severity_ordering`. -/
structure OrderedFinding where
  severity : String
  asset_name : String
  title : String
deriving DecidableEq

/-- The `severity_order` annotation of `FindingManager.severity_ordering`
(lines 46-54): its own Case table, distinct from the save-time rank table. -/
def severity_order (s : String) : Nat :=
  if s = "info" then 0
  else if s = "low" then 1
  else if s = "medium" then 2
  else if s = "high" then 3
  else if s = "critical" then 4
  else 0

/-- The comparison realised by `order_by('-severity_order', 'asset_name', 'title')`:
annotation descending, then asset name ascending, then title ascending. -/
def severityOrderRel (a b : OrderedFinding) : Prop :=
  severity_order b.severity < severity_order a.severity ∨
    (severity_order a.severity = severity_order b.severity ∧
      (a.asset_name < b.asset_name ∨ (a.asset_name = b.asset_name ∧ a.title ≤ b.title)))

instance : DecidableRel severityOrderRel := fun a b => by
  unfold severityOrderRel
  infer_instance

/-- `FindingManager.severity_ordering` (lines 43-57), as a sort of the rows
by the comparison above. -/
def severity_ordering (l : List OrderedFinding) : List OrderedFinding :=
  List.insertionSort severityOrderRel l
theorem sha1Combine_lt (st : Sha1State) : sha1Combine st < 2 ^ 160 :=
  Nat.mod_lt _ (Nat.pow_pos (by decide))

theorem sha1Digest_lt (m : List Nat) : sha1Digest m < 2 ^ 160 :=
  sha1Combine_lt _

theorem utf8Encode_append (a b : String) :
    utf8Encode (a ++ b) = utf8Encode a ++ utf8Encode b := by
  simp [utf8Encode, String.data_append, List.flatMap_append]

theorem string_append_cancel_right {a b t : String} (h : a ++ t = b ++ t) : a = b := by
  apply String.ext
  have hd := congrArg String.data h
  rw [String.data_append, String.data_append] at hd
  exact List.append_cancel_right hd

theorem string_append_cancel_left {a t u : String} (h : a ++ t = a ++ u) : t = u := by
  apply String.ext
  have hd := congrArg String.data h
  rw [String.data_append, String.data_append] at hd
  exact List.append_cancel_left hd

theorem computeHash_eq_of_concat_eq {a t b u : String} (h : a ++ t = b ++ u) :
    computeHash a t = computeHash b u := by
  unfold computeHash
  rw [← utf8Encode_append, ← utf8Encode_append, h]

theorem selectRules_eq_filter (rules : List Rule) (trigger : String) :
    selectRules rules trigger =
      rules.filter (fun r => r.enabled && r.scope == "finding" &&
        (trigger == "all" || r.trigger == trigger)) := by
  unfold selectRules
  by_cases h : trigger = "all"
  · rw [if_pos h]
    apply List.filter_congr
    intro r _
    simp [h]
  · rw [if_neg h]
    apply List.filter_congr
    intro r _
    have : (trigger == "all") = false := by simpa using h
    simp [this, Bool.and_assoc]

theorem evalLoop_ok (f : FindingCtx) (store : List StoredFinding) (rs : List Rule)
    (hne : ∀ r ∈ rs, r.condition ≠ [])
    (hfield : ∀ r ∈ rs,
        finding_fields.contains (r.scope_attr ++ (r.condition.headD ("", "")).1) = true) :
    evalLoop f store rs =
      ((rs.filter (ruleMatches f store)).map (fun _ => mkNotification f),
        Except.ok (rs.filter (ruleMatches f store)).length) := by
  induction rs with
  | nil => rfl
  | cons r rest ih =>
    have hne1 : r.condition ≠ [] := hne r (List.mem_cons_self r rest)
    obtain ⟨⟨k, v⟩, tl, hcond⟩ : ∃ p tl, r.condition = p :: tl := by
      cases hc : r.condition with
      | nil => exact absurd hc hne1
      | cons p tl => exact ⟨p, tl, rfl⟩
    have hcontains : finding_fields.contains (r.scope_attr ++ k) = true := by
      have hx := hfield r (List.mem_cons_self r rest)
      rw [hcond] at hx
      simpa using hx
    have ihr := ih (fun x hx => hne x (List.mem_cons_of_mem r hx))
      (fun x hx => hfield x (List.mem_cons_of_mem r hx))
    rw [evalLoop, hcond]
    simp only [storeFilter, hcontains, if_true]
    have hmatch : ruleMatches f store r =
        !(storeMatches store f.id (r.scope_attr ++ k) v).isEmpty := by
      rw [ruleMatches, hcond]
    by_cases hemp : (storeMatches store f.id (r.scope_attr ++ k) v).isEmpty
    · simp only [hemp, if_pos]
      have hm : ruleMatches f store r = false := by rw [hmatch, hemp]; rfl
      rw [List.filter_cons, hm]
      simpa using ihr
    · have hempf : (storeMatches store f.id (r.scope_attr ++ k) v).isEmpty = false := by
        simpa using hemp
      simp only [hempf, Bool.false_eq_true, if_false]
      have hm : ruleMatches f store r = true := by rw [hmatch, hempf]; rfl
      rw [List.filter_cons, hm, ihr]
      simp [Except.map]

instance : IsTotal OrderedFinding severityOrderRel := by
  constructor
  intro a b
  unfold severityOrderRel
  rcases Nat.lt_trichotomy (severity_order a.severity) (severity_order b.severity) with h | h | h
  · right; left; exact h
  · rcases lt_trichotomy a.asset_name b.asset_name with g | g | g
    · left; right; exact ⟨h, Or.inl g⟩
    · rcases le_total a.title b.title with t | t
      · left; right; exact ⟨h, Or.inr ⟨g, t⟩⟩
      · right; right; exact ⟨h.symm, Or.inr ⟨g.symm, t⟩⟩
    · right; right; exact ⟨h.symm, Or.inl g⟩
  · left; left; exact h

instance : IsTrans OrderedFinding severityOrderRel := by
  constructor
  intro a b c hab hbc
  unfold severityOrderRel at hab hbc ⊢
  rcases hab with h1 | ⟨h1, h2⟩
  · rcases hbc with g1 | ⟨g1, g2⟩
    · exact Or.inl (lt_trans g1 h1)
    · exact Or.inl (g1 ▸ h1)
  · rcases hbc with g1 | ⟨g1, g2⟩
    · exact Or.inl (by rw [h1]; exact g1)
    · refine Or.inr ⟨h1.trans g1, ?_⟩
      rcases h2 with h2 | ⟨h2, h3⟩
      · rcases g2 with g2 | ⟨g2, g3⟩
        · exact Or.inl (lt_trans h2 g2)
        · exact Or.inl (g2 ▸ h2)
      · rcases g2 with g2 | ⟨g2, g3⟩
        · exact Or.inl (by rw [h2]; exact g2)
        · exact Or.inr ⟨h2.trans g2, le_trans h3 g3⟩
set_option maxRecDepth 400000 in
/-- Sanity check of the SHA-1 embedding against the standard test vector
for the message "abc". -/
theorem sha1Hex_test_vector :
    sha1Hex (utf8Encode "abc") = "a9993e364706816aba3e25717850c26c9cd0d89d" := by decide
/-- C1: Creating a curated Finding invokes the owning asset's risk-grade
recomputation zero times, every update invokes it exactly once, and every
delete whose asset resolves invokes it exactly once; no RawFinding create,
update or delete ever invokes asset risk-grade recomputation. -/
theorem finding_risk_cascade_counts (asset_id : Nat) (assets : List Asset) (a : Asset)
    (h : assets.find? (fun x => x.id == asset_id) = some a) :
    (finding_create_update_log true asset_id).1.length = 0 ∧
    (finding_create_update_log false asset_id).1.length = 1 ∧
    finding_delete_log assets asset_id = Except.ok ([a.id], ⟨"DELETE", "DEBUG"⟩) ∧
    (rawfinding_create_update_log true).1.length = 0 ∧
    (rawfinding_create_update_log false).1.length = 0 ∧
    rawfinding_delete_log.1.length = 0 := by
  refine ⟨rfl, rfl, ?_, rfl, rfl, rfl⟩
  rw [finding_delete_log, h]

/-- Witness for C1 at a one-asset store. -/
theorem finding_risk_cascade_counts_witness :
    [Asset.mk 7 "host1"].find? (fun x => x.id == 7) = some (Asset.mk 7 "host1") ∧
    ((finding_create_update_log true 7).1.length = 0 ∧
     (finding_create_update_log false 7).1.length = 1 ∧
     finding_delete_log [Asset.mk 7 "host1"] 7 = Except.ok ([7], ⟨"DELETE", "DEBUG"⟩) ∧
     (rawfinding_create_update_log true).1.length = 0 ∧
     (rawfinding_create_update_log false).1.length = 0 ∧
     rawfinding_delete_log.1.length = 0) :=
  ⟨by decide, finding_risk_cascade_counts 7 [Asset.mk 7 "host1"] (Asset.mk 7 "host1") (by decide)⟩

/-- C2 refutation: with severities [low, critical, info, high] and equal
asset/title, `severity_ordering` does not return high, low, info, critical:
its Case annotation puts critical highest (4), not in the fallback bucket. -/
theorem severity_ordering_claim_refuted :
    severity_ordering
      [⟨"low", "a", "t"⟩, ⟨"critical", "a", "t"⟩, ⟨"info", "a", "t"⟩, ⟨"high", "a", "t"⟩] ≠
      [⟨"high", "a", "t"⟩, ⟨"low", "a", "t"⟩, ⟨"info", "a", "t"⟩, ⟨"critical", "a", "t"⟩] := by
  decide

/-- C2 amended: `severity_ordering` sorts by its own annotation table
(info 0, low 1, medium 2, high 3, critical 4, default 0) descending, then
asset name ascending, then title ascending; the example list comes back as
critical, high, low, info. -/
theorem severity_ordering_amended (l : List OrderedFinding) :
    List.Sorted severityOrderRel (severity_ordering l) ∧
    (severity_ordering l).Perm l ∧
    severity_order "info" = 0 ∧ severity_order "low" = 1 ∧ severity_order "medium" = 2 ∧
    severity_order "high" = 3 ∧ severity_order "critical" = 4 ∧ severity_order "unknown" = 0 ∧
    severity_ordering
        [⟨"low", "a", "t"⟩, ⟨"critical", "a", "t"⟩, ⟨"info", "a", "t"⟩, ⟨"high", "a", "t"⟩] =
      [⟨"critical", "a", "t"⟩, ⟨"high", "a", "t"⟩, ⟨"low", "a", "t"⟩, ⟨"info", "a", "t"⟩] :=
  ⟨List.sorted_insertionSort severityOrderRel l, List.perm_insertionSort severityOrderRel l,
   by decide, by decide, by decide, by decide, by decide, by decide, by decide⟩

/-- C3: every save recomputes the stored severity rank from the severity
label: info 1, low 2, medium 3, high 4, and every other label (critical
included) 0. -/
theorem severity_rank_recomputed_on_save (r : RawFinding) (f : Finding)
    (adding adding2 : Bool) (now now2 : Nat) (s : String)
    (h1 : s ≠ "info") (h2 : s ≠ "low") (h3 : s ≠ "medium") (h4 : s ≠ "high") :
    (r.save adding now).severity_num = rankOf r.severity ∧
    (f.save adding2 now2).severity_num = rankOf f.severity ∧
    rankOf "info" = 1 ∧ rankOf "low" = 2 ∧ rankOf "medium" = 3 ∧
    rankOf "high" = 4 ∧ rankOf "critical" = 0 ∧ rankOf s = 0 := by
  refine ⟨rfl, rfl, by decide, by decide, by decide, by decide, by decide, ?_⟩
  rw [rankOf, if_neg h1, if_neg h2, if_neg h3, if_neg h4]

/-- Witness for C3 at a concrete RawFinding, Finding and the label "unknown". -/
theorem severity_rank_recomputed_on_save_witness :
    ("unknown" ≠ "info" ∧ "unknown" ≠ "low" ∧ "unknown" ≠ "medium" ∧ "unknown" ≠ "high") ∧
    ((RawFinding.save ⟨"host1", "Open Port", "", "critical", 1, 0, 0⟩ true 5).severity_num =
        rankOf "critical" ∧
     (Finding.save ⟨"host1", "Open Port", "", "high", 1, 0, 0⟩ false 5).severity_num =
        rankOf "high" ∧
     rankOf "info" = 1 ∧ rankOf "low" = 2 ∧ rankOf "medium" = 3 ∧
     rankOf "high" = 4 ∧ rankOf "critical" = 0 ∧ rankOf "unknown" = 0) :=
  ⟨⟨by decide, by decide, by decide, by decide⟩,
   severity_rank_recomputed_on_save ⟨"host1", "Open Port", "", "critical", 1, 0, 0⟩
     ⟨"host1", "Open Port", "", "high", 1, 0, 0⟩ true false 5 5 "unknown"
     (by decide) (by decide) (by decide) (by decide)⟩

/-- C4 refutation: `computeHash` produces a 160-bit digest, so over all
strings it cannot be injective — some two distinct asset names (title held
fixed) receive the same hash, against the claim that changing either input
always changes the hash. -/
theorem computeHash_claim_refuted :
    ∃ a b : String, a ≠ b ∧ computeHash a "title" = computeHash b "title" := by
  obtain ⟨x, y, hxy, hf⟩ := Finite.exists_ne_map_eq_of_infinite
    (fun s : String =>
      (⟨sha1Digest (utf8Encode s ++ utf8Encode "title"), sha1Digest_lt _⟩ : Fin (2 ^ 160)))
  refine ⟨x, y, hxy, ?_⟩
  have hv : sha1Digest (utf8Encode x ++ utf8Encode "title") =
      sha1Digest (utf8Encode y ++ utf8Encode "title") := congrArg Fin.val hf
  unfold computeHash sha1Hex
  rw [hv]

/-- C4 amended: `computeHash` is a deterministic digest of the UTF-8
concatenation of asset name and title with no delimiter, recomputed on every
save of a RawFinding or Finding; equal inputs always give equal hashes, and
changing either input (holding the other fixed) changes the digested
concatenation — though the fixed-width digest cannot separate all of them. -/
theorem computeHash_deterministic_on_save (a b t u : String)
    (r : RawFinding) (f : Finding) (adding adding2 : Bool) (now now2 : Nat)
    (hab : a ≠ b) (htu : t ≠ u) :
    computeHash a t = computeHash a t ∧
    (r.save adding now).hash = computeHash r.asset_name r.title ∧
    (f.save adding2 now2).hash = computeHash f.asset_name f.title ∧
    a ++ t ≠ b ++ t ∧
    a ++ t ≠ a ++ u := by
  refine ⟨rfl, rfl, rfl, ?_, ?_⟩
  · intro h
    exact hab (string_append_cancel_right h)
  · intro h
    exact htu (string_append_cancel_left h)

/-- Witness for the amended C4 at concrete strings and records. -/
theorem computeHash_deterministic_on_save_witness :
    ("host1" ≠ "host2" ∧ "Open Port" ≠ "Open Port 22") ∧
    (computeHash "host1" "Open Port" = computeHash "host1" "Open Port" ∧
     (RawFinding.save ⟨"host1", "Open Port", "", "info", 1, 0, 0⟩ true 5).hash =
        computeHash "host1" "Open Port" ∧
     (Finding.save ⟨"host1", "Open Port", "", "info", 1, 0, 0⟩ false 5).hash =
        computeHash "host1" "Open Port" ∧
     "host1" ++ "Open Port" ≠ "host2" ++ "Open Port" ∧
     "host1" ++ "Open Port" ≠ "host1" ++ "Open Port 22") :=
  ⟨⟨by decide, by decide⟩,
   computeHash_deterministic_on_save "host1" "host2" "Open Port" "Open Port 22"
     ⟨"host1", "Open Port", "", "info", 1, 0, 0⟩ ⟨"host1", "Open Port", "", "info", 1, 0, 0⟩
     true false 5 5 (by decide) (by decide)⟩
/-- C5: `evaluate_alert_rules` on a Finding selects exactly the enabled
finding-scoped rules (trigger-filtered unless "all"), matches each against
the store on id plus `scope_attr` + first condition key with the first
condition value, returns the number of matching rules, and dispatches one
notification per match with message "[Asset=<asset value>] <title>" and the
asset and description as context (assuming every selected rule has a
non-empty condition naming a valid field). -/
theorem evaluate_alert_rules_contract (f : FindingCtx) (trigger : String)
    (rules : List Rule) (store : List StoredFinding)
    (hne : ∀ r ∈ selectRules rules trigger, r.condition ≠ [])
    (hfield : ∀ r ∈ selectRules rules trigger,
        finding_fields.contains (r.scope_attr ++ (r.condition.headD ("", "")).1) = true) :
    selectRules rules trigger =
      rules.filter (fun r => r.enabled && r.scope == "finding" &&
        (trigger == "all" || r.trigger == trigger)) ∧
    evaluate_alert_rules f trigger rules store =
      (((selectRules rules trigger).filter (ruleMatches f store)).map
          (fun _ => mkNotification f),
        Except.ok ((selectRules rules trigger).filter (ruleMatches f store)).length) ∧
    mkNotification f =
      ⟨"[Asset=" ++ f.asset_value ++ "] " ++ f.title, f.asset_value, f.description⟩ :=
  ⟨selectRules_eq_filter rules trigger, evalLoop_ok f store _ hne hfield, rfl⟩

/-- Witness for C5: two enabled rules, one matching and one not, give match
count 1 and a single notification. -/
theorem evaluate_alert_rules_contract_witness :
    ((∀ r ∈ selectRules
        [⟨true, "finding", "new", "", [("severity", "high")]⟩,
         ⟨true, "finding", "new", "", [("severity", "low")]⟩] "all", r.condition ≠ []) ∧
     (∀ r ∈ selectRules
        [⟨true, "finding", "new", "", [("severity", "high")]⟩,
         ⟨true, "finding", "new", "", [("severity", "low")]⟩] "all",
        finding_fields.contains (r.scope_attr ++ (r.condition.headD ("", "")).1) = true)) ∧
    evaluate_alert_rules ⟨1, "Open Port", "desc", "host1"⟩ "all"
      [⟨true, "finding", "new", "", [("severity", "high")]⟩,
       ⟨true, "finding", "new", "", [("severity", "low")]⟩]
      [⟨1, [("severity", "high")]⟩] =
      ([⟨"[Asset=host1] Open Port", "host1", "desc"⟩], Except.ok 1) := by
  refine ⟨⟨by decide, by decide⟩, ?_⟩
  rw [(evaluate_alert_rules_contract ⟨1, "Open Port", "desc", "host1"⟩ "all"
    [⟨true, "finding", "new", "", [("severity", "high")]⟩,
     ⟨true, "finding", "new", "", [("severity", "low")]⟩]
    [⟨1, [("severity", "high")]⟩] (by decide) (by decide)).2.1]
  decide

/-- C6 refutation: a failing rule is not isolated.  With a first rule whose
derived field name is unknown and a second rule that would match, the whole
evaluation aborts with the first rule's error; the second rule is never
evaluated and no match count is returned. -/
theorem rule_failure_not_isolated :
    evaluate_alert_rules ⟨1, "t", "d", "h"⟩ "all"
      [⟨true, "finding", "new", "bogus_", [("field", "x")]⟩,
       ⟨true, "finding", "new", "", [("severity", "high")]⟩]
      [⟨1, [("severity", "high")]⟩] =
      ([], Except.error (PyError.fieldError "bogus_field")) := by decide

/-- C6 amended: a rule with an empty condition makes the evaluation fail
with an error (StopIteration — neither silently skipped nor matching
everything), and any other failing rule (such as one naming an unknown
field) likewise aborts the whole evaluation instead of being isolated and
excluded from the count. -/
theorem rule_failure_aborts_evaluation (f : FindingCtx) (trigger : String)
    (rules : List Rule) (store : List StoredFinding) (r : Rule) (rest : List Rule)
    (hsel : selectRules rules trigger = r :: rest) :
    (r.condition = [] →
      evaluate_alert_rules f trigger rules store = ([], Except.error PyError.stopIteration)) ∧
    (∀ k v tl, r.condition = (k, v) :: tl →
      finding_fields.contains (r.scope_attr ++ k) = false →
      evaluate_alert_rules f trigger rules store =
        ([], Except.error (PyError.fieldError (r.scope_attr ++ k)))) := by
  constructor
  · intro hc
    rw [evaluate_alert_rules, hsel, evalLoop, hc]
  · intro k v tl hc hbad
    rw [evaluate_alert_rules, hsel, evalLoop, hc]
    simp only [storeFilter, hbad, Bool.false_eq_true, if_false]

/-- Witness for the amended C6: a single rule naming an unknown field aborts
the evaluation with a FieldError. -/
theorem rule_failure_aborts_evaluation_witness :
    selectRules [⟨true, "finding", "new", "bogus_", [("field", "x")]⟩] "all" =
      ⟨true, "finding", "new", "bogus_", [("field", "x")]⟩ :: [] ∧
    evaluate_alert_rules ⟨1, "t", "d", "h"⟩ "all"
      [⟨true, "finding", "new", "bogus_", [("field", "x")]⟩]
      [⟨1, [("severity", "high")]⟩] =
      ([], Except.error (PyError.fieldError "bogus_field")) :=
  ⟨by decide,
   (rule_failure_aborts_evaluation ⟨1, "t", "d", "h"⟩ "all"
       [⟨true, "finding", "new", "bogus_", [("field", "x")]⟩]
       [⟨1, [("severity", "high")]⟩]
       ⟨true, "finding", "new", "bogus_", [("field", "x")]⟩ [] (by decide)).2
     "field" "x" [] rfl (by decide)⟩

/-- C7: `RawFinding.evaluate_alert_rules` does not honour the Finding
contract: on a rule with a non-empty condition it raises `AttributeError`
(the Python-2 `dict.itervalues` call survives in the RawFinding copy while
the Finding copy was ported to Python 3), so no match count is returned and
no notification dispatched even for a matching enabled finding-scoped rule. -/
theorem rawfinding_evaluate_attribute_error :
    rawfinding_evaluate_alert_rules ⟨1, "Open Port", "desc", "host1"⟩ "all"
      [⟨true, "finding", "new", "", [("severity", "high")]⟩] =
      ([], Except.error PyError.attributeError) := by decide

/-- C8: an update save refreshes `updated_at`, the initial creation save does
not, and no save of either model changes `created_at`. -/
theorem save_timestamps (r : RawFinding) (f : Finding) (adding : Bool) (now : Nat) :
    (r.save adding now).created_at = r.created_at ∧
    (f.save adding now).created_at = f.created_at ∧
    (r.save true now).updated_at = r.updated_at ∧
    (f.save true now).updated_at = f.updated_at ∧
    (r.save false now).updated_at = now ∧
    (f.save false now).updated_at = now :=
  ⟨rfl, rfl, rfl, rfl, rfl, rfl⟩

/-- C9: deleting a Finding resolves the asset by the stored reference; a
dangling reference surfaces the DoesNotExist fault instead of completing
silently, and a resolving one gets exactly its risk grade recomputed. -/
theorem finding_delete_asset_resolution (assets : List Asset) (asset_id : Nat) :
    (assets.find? (fun x => x.id == asset_id) = none →
      finding_delete_log assets asset_id =
        Except.error "Asset matching query does not exist") ∧
    (∀ a, assets.find? (fun x => x.id == asset_id) = some a →
      finding_delete_log assets asset_id = Except.ok ([a.id], ⟨"DELETE", "DEBUG"⟩)) := by
  constructor
  · intro h
    rw [finding_delete_log, h]
  · intro a h
    rw [finding_delete_log, h]

/-- Witness for C9: a dangling reference errors, a resolving one succeeds
with one risk-grade call. -/
theorem finding_delete_asset_resolution_witness :
    ([Asset.mk 5 "web"].find? (fun x => x.id == 6) = none ∧
      finding_delete_log [Asset.mk 5 "web"] 6 =
        Except.error "Asset matching query does not exist") ∧
    ([Asset.mk 5 "web"].find? (fun x => x.id == 5) = some (Asset.mk 5 "web") ∧
      finding_delete_log [Asset.mk 5 "web"] 5 = Except.ok ([5], ⟨"DELETE", "DEBUG"⟩)) :=
  ⟨⟨by decide, (finding_delete_asset_resolution [Asset.mk 5 "web"] 6).1 (by decide)⟩,
   ⟨by decide, (finding_delete_asset_resolution [Asset.mk 5 "web"] 5).2
      (Asset.mk 5 "web") (by decide)⟩⟩

/-- C10: the dedup hash depends only on the concatenation of asset name and
title: pairs with equal concatenation hash identically, and a RawFinding or
Finding saved with either pair receives the identical stored hash. -/
theorem hash_depends_only_on_concat (a t b u : String) (r r2 : RawFinding) (g g2 : Finding)
    (adding adding2 : Bool) (now now2 : Nat)
    (h : a ++ t = b ++ u)
    (hr : r.asset_name ++ r.title = r2.asset_name ++ r2.title)
    (hg : g.asset_name ++ g.title = g2.asset_name ++ g2.title) :
    computeHash a t = computeHash b u ∧
    (r.save adding now).hash = (r2.save adding2 now2).hash ∧
    (g.save adding now).hash = (g2.save adding2 now2).hash :=
  ⟨computeHash_eq_of_concat_eq h, computeHash_eq_of_concat_eq hr,
   computeHash_eq_of_concat_eq hg⟩

/-- Witness for C10 at the pairs ("ab","c") and ("a","bc"). -/
theorem hash_depends_only_on_concat_witness :
    ("ab" ++ "c" = "a" ++ "bc") ∧
    (computeHash "ab" "c" = computeHash "a" "bc" ∧
     (RawFinding.save ⟨"ab", "c", "", "info", 1, 0, 0⟩ true 5).hash =
        (RawFinding.save ⟨"a", "bc", "", "info", 1, 0, 0⟩ false 9).hash ∧
     (Finding.save ⟨"ab", "c", "", "info", 1, 0, 0⟩ true 5).hash =
        (Finding.save ⟨"a", "bc", "", "info", 1, 0, 0⟩ false 9).hash) :=
  ⟨by decide,
   hash_depends_only_on_concat "ab" "c" "a" "bc"
     ⟨"ab", "c", "", "info", 1, 0, 0⟩ ⟨"a", "bc", "", "info", 1, 0, 0⟩
     ⟨"ab", "c", "", "info", 1, 0, 0⟩ ⟨"a", "bc", "", "info", 1, 0, 0⟩
     true false 5 9 (by decide) (by decide) (by decide)⟩
